import Mathlib

/-!
Shallow embedding of `cli/langservehub/cli.py` (the `langservehub` CLI).

The manifest document (`pyproject.toml` data) is modelled as an
insertion-ordered association list of string keys to TOML-like values,
mirroring Python's `dict` semantics as produced by `tomllib.load`:
lookup returns the first (unique) binding, assignment to an existing key
overwrites in place preserving position, assignment to a fresh key
appends, and `pop` of an absent key raises `KeyError`.

Python exceptions are modelled with `Except Err`; `print` side effects
are dropped; filesystem writes are modelled by returning the
`(path, data)` pair that `dump_toml` would write.  A Python operation
that would raise `TypeError`/`AttributeError` because a value in a
table position is not a table is folded into `Err.typeError`.
-/

namespace LangserveHub

/-- A TOML-like value: a string, a pair (Python tuple, as stored for a
mount entry point), or a nested table. -/
inductive Val : Type where
  | s (x : String)
  | pair (a b : Val)
  | tbl (t : List (String × Val))

/-- A Python `dict` with string keys, as an insertion-ordered
association list with unique keys. -/
abbrev Dict := List (String × Val)

/-- Python errors raised by the code under study. -/
inductive Err : Type where
  | keyError (k : String)
  | valueError (msg : String)
  | typeError
deriving Repr, DecidableEq

/-- `d[k]` as a total lookup: `none` models a raised `KeyError`,
`d.get(k)` returning `None`. First binding wins. -/
def dget (d : Dict) (k : String) : Option Val :=
  match d with
  | [] => none
  | (k', v') :: rest => if k' = k then some v' else dget rest k

/-- `d[k] = v`: overwrite in place if the key exists (position kept),
append otherwise — Python `dict` assignment. -/
def dset (d : Dict) (k : String) (v : Val) : Dict :=
  match d with
  | [] => [(k, v)]
  | (k', v') :: rest => if k' = k then (k, v) :: rest else (k', v') :: dset rest k v

/-- `d.pop(k)`: `none` models the `KeyError` raised when `k` is absent;
otherwise the dict without the binding of `k`. -/
def dpop (d : Dict) (k : String) : Option Dict :=
  match d with
  | [] => none
  | (k', v') :: rest =>
    if k' = k then some rest else (dpop rest k).map (fun r => (k', v') :: r)

/-- View a value as a table; anything else is a `TypeError`-class
failure when the Python code goes on to treat it as a dict. -/
def asTbl (v : Val) : Except Err Dict :=
  match v with
  | .tbl t => Except.ok t
  | _ => Except.error Err.typeError

/-- `class PyProject`: the parsed manifest data plus the load path
(`None` for URL-backed documents). -/
structure PyProject : Type where
  data : Dict
  path : Option String

namespace PyProject

/-- `PyProject.load(path)`, given the parsed content of the file. -/
def load (path : String) (data : Dict) : PyProject :=
  { data := data, path := path }

/-- `PyProject.from_url(url)`, given the outcome of
`urlopen(url)` + `load_toml` (`none` models an `HTTPError`): the
`HTTPError` is caught and re-raised as
`ValueError("Consider updating your GITHUB_TOKEN")`; the document is
created with `path = None`. -/
def from_url (fetched : Option Dict) : Except Err PyProject :=
  match fetched with
  | some data => Except.ok { data := data, path := none }
  | none => Except.error (Err.valueError "Consider updating your GITHUB_TOKEN")

/-- `PyProject.save()`: raises `ValueError` when the document was not
loaded from a file; otherwise writes `dump_toml(self.data)` to
`self.path`, modelled as returning the `(path, data)` written. -/
def save (p : PyProject) : Except Err (String × Dict) :=
  match p.path with
  | none =>
    Except.error (Err.valueError "Cannot save a PyProject that was not loaded from a file")
  | some pa => Except.ok (pa, p.data)

/-- The repeated expression `self.data["tool"].get("langserve", {})`:
`KeyError` when `"tool"` is absent, the (possibly empty) `langserve`
table otherwise. -/
def getLangserveDict (p : PyProject) : Except Err Dict :=
  match dget p.data "tool" with
  | none => Except.error (Err.keyError "tool")
  | some toolV =>
    match asTbl toolV with
    | Except.error e => Except.error e
    | Except.ok tool =>
      match dget tool "langserve" with
      | none => Except.ok ([] : Dict)
      | some lv => asTbl lv

/-- `PyProject._get_langserve_path_dict`:
`self.data["tool"].get("langserve", {}).get("paths", {})`. -/
def get_langserve_path_dict (p : PyProject) : Except Err Dict :=
  match getLangserveDict p with
  | Except.error e => Except.error e
  | Except.ok ls =>
    match dget ls "paths" with
    | none => Except.ok ([] : Dict)
    | some pv => asTbl pv

/-- `PyProject._set_langserve_path_dict(path_dict)`: reads
`self.data["tool"]` (a `KeyError` when absent), fetches or creates the
`langserve` table, stores `path_dict` under `"paths"` and writes the
`langserve` table back under `self.data["tool"]["langserve"]`. -/
def set_langserve_path_dict (p : PyProject) (pathDict : Dict) : Except Err PyProject :=
  match dget p.data "tool" with
  | none => Except.error (Err.keyError "tool")
  | some toolV =>
    match asTbl toolV with
    | Except.error e => Except.error e
    | Except.ok tool =>
      let lsRes : Except Err Dict :=
        match dget tool "langserve" with
        | none => Except.ok ([] : Dict)
        | some lv => asTbl lv
      match lsRes with
      | Except.error e => Except.error e
      | Except.ok ls =>
        let ls2 := dset ls "paths" (Val.tbl pathDict)
        let tool2 := dset tool "langserve" (Val.tbl ls2)
        Except.ok { p with data := dset p.data "tool" (Val.tbl tool2) }

/-- `PyProject.is_langserve()`: `"langserve" in self.data["tool"]` —
a `KeyError` when the document has no `tool` table. -/
def is_langserve (p : PyProject) : Except Err Bool :=
  match dget p.data "tool" with
  | none => Except.error (Err.keyError "tool")
  | some toolV =>
    match asTbl toolV with
    | Except.error e => Except.error e
    | Except.ok tool => Except.ok (dget tool "langserve").isSome

/-- `PyProject.add_langserve_path(path, module)`: read the paths dict,
assign `paths[path] = module`, write it back. -/
def add_langserve_path (p : PyProject) (path : String) (module : Val) :
    Except Err PyProject :=
  match p.get_langserve_path_dict with
  | Except.error e => Except.error e
  | Except.ok paths => p.set_langserve_path_dict (dset paths path module)

/-- `PyProject.remove_langserve_path(path)`: read the paths dict,
`paths.pop(path)` (a `KeyError` when absent, raised before any
mutation), write the rest back. -/
def remove_langserve_path (p : PyProject) (path : String) : Except Err PyProject :=
  match p.get_langserve_path_dict with
  | Except.error e => Except.error e
  | Except.ok paths =>
    match dpop paths path with
    | none => Except.error (Err.keyError path)
    | some paths2 => p.set_langserve_path_dict paths2

/-- `PyProject.get_langserve_paths()`. -/
def get_langserve_paths (p : PyProject) : Except Err Dict :=
  p.get_langserve_path_dict

/-- `PyProject.get_langserve_export()`: look up `export_module` then
`export_attr` under `tool.langserve`, raising a `ValueError` naming the
missing field; both present returns the pair. -/
def get_langserve_export (p : PyProject) : Except Err (Val × Val) :=
  match getLangserveDict p with
  | Except.error e => Except.error e
  | Except.ok ls =>
    match dget ls "export_module" with
    | none =>
      Except.error (Err.valueError
        "No module name was exported at `tool.langserve.export_module`")
    | some module =>
      match getLangserveDict p with
      | Except.error e => Except.error e
      | Except.ok ls2 =>
        match dget ls2 "export_attr" with
        | none =>
          Except.error (Err.valueError
            "No attr name was exported at `tool.langserve.export_attr`")
        | some attr => Except.ok (module, attr)

end PyProject

/-- Python's `s.startswith(p)` for the one-character prefixes used by
this code (`"."` and `"/"`): true iff the first character of `s` is
`c`. -/
def startswithChar (s : String) (c : Char) : Bool :=
  match s.data with
  | [] => false
  | c' :: _ => c' = c

/-- `_package_to_poetry(package)`: local-path identifiers (leading `.`
or `/`) are returned unchanged; anything else becomes the fixed
git-fetchable hub source locator with `package` as the subdirectory. -/
def package_to_poetry (package : String) : String :=
  if startswithChar package '.' || startswithChar package '/' then package
  else "git+https://github.com/langchain-ai/langserve-hub.git#subdirectory=" ++ package

/-- `_package_to_pyproject(package)`: local-path identifiers get
`/pyproject.toml` appended; anything else becomes the fixed
raw-content URL for the package's `pyproject.toml`, with `?token=...`
appended only when `os.environ.get("GITHUB_TOKEN")` is truthy (set and
nonempty).  The ambient environment read is passed in explicitly as
`githubToken` (`none` models an unset variable). -/
def package_to_pyproject (package : String) (githubToken : Option String) : String :=
  if startswithChar package '.' || startswithChar package '/' then
    package ++ "/pyproject.toml"
  else
    let tokenparam :=
      match githubToken with
      | none => ""
      | some t => if t = "" then "" else "?token=" ++ t
    "https://raw.githubusercontent.com/langchain-ai/langserve-hub/main/"
      ++ package ++ "/pyproject.toml" ++ tokenparam

/-- The `list` CLI command.  The source does
`curr_data = _load_pyproject()` — a `PyProject` object — and then
subscripts the object itself: `curr_data["tool"]`.  `PyProject`
defines no `__getitem__`, so this raises
`TypeError: PyProject object is not subscriptable` for every
document, before any line is echoed.  `localData` is the parsed
content of the current project's `pyproject.toml`. -/
def listCmd (localData : Dict) : Except Err (List String) :=
  Except.error Err.typeError

/-- What the `add` command did: whether `subprocess.run("poetry add ...")`
was reached (its exit status is never inspected by the code), and either
the `(path, data)` write performed by the final `save()` or the raised
error.  On an error nothing is written to the local manifest. -/
structure AddOutcome : Type where
  installerInvoked : Bool
  result : Except Err (String × Dict)

/-- The `add` CLI command: resolve the remote manifest URL, fetch it
(`fetch` models `urlopen` + `load_toml`; `none` is an `HTTPError`),
require `is_langserve`, run `poetry add` on the resolved source
location (exit status `installerExit` is discarded by the code), then
load the local manifest, upsert the mount at `path or "/" + package`
with the remote export, and save. -/
def addCmd (package : String) (githubToken : Option String)
    (fetch : String → Option Dict) (installerExit : Int)
    (localPath : String) (localData : Dict) (path : Option String) : AddOutcome :=
  match PyProject.from_url (fetch (package_to_pyproject package githubToken)) with
  | Except.error e => ⟨false, Except.error e⟩
  | Except.ok packagePyproject =>
    match packagePyproject.is_langserve with
    | Except.error e => ⟨false, Except.error e⟩
    | Except.ok false =>
      ⟨false, Except.error (Err.valueError
        ("Package " ++ package
          ++ " does not have a `tool.langserve` section in its pyproject.toml"))⟩
    | Except.ok true =>
      -- subprocess.run("poetry add " ++ package_to_poetry package) runs here;
      -- installerExit is not checked (no check=True, returncode unread).
      let apiPath :=
        match path with
        | none => "/" ++ package
        | some s => if s = "" then "/" ++ package else s
      let pyproject := PyProject.load localPath localData
      match packagePyproject.get_langserve_export with
      | Except.error e => ⟨true, Except.error e⟩
      | Except.ok ex =>
        match pyproject.add_langserve_path apiPath (Val.pair ex.1 ex.2) with
        | Except.error e => ⟨true, Except.error e⟩
        | Except.ok py2 =>
          match py2.save with
          | Except.error e => ⟨true, Except.error e⟩
          | Except.ok w => ⟨true, Except.ok w⟩

/-- Modelled from the spec: the remote tree walked by
`download_github_path` (defined in `cli/langservehub/github.py`, which
is not among the sources).  A file's `content` is `none` when its
fetch fails. -/
inductive RTree : Type where
  | file (name : String) (content : Option String)
  | dir (name : String) (children : List RTree)

/-- Modelled from the spec: errors of the downloader —
`NotFoundError` when the remote path does not exist, and a propagated
fetch failure naming the entry that failed. -/
inductive DownloadErr : Type where
  | notFound
  | fetchFailed (path : String)
deriving Repr, DecidableEq

/-- Modelled from the spec: mirror a directory's entries under
`localPath`, writing each fetched file to `localPath/entryName` and
recursing into subdirectories; the first failed fetch aborts the whole
traversal, and files already written stay written.  Returns the files
written (local path and content) and the first failure, if any. -/
def downloadEntries (localPath : String) :
    List RTree → List (String × String) × Option DownloadErr
  | [] => ([], none)
  | RTree.file name none :: _ =>
    ([], some (DownloadErr.fetchFailed (localPath ++ "/" ++ name)))
  | RTree.file name (some c) :: ts =>
    let r := downloadEntries localPath ts
    ((localPath ++ "/" ++ name, c) :: r.1, r.2)
  | RTree.dir name children :: ts =>
    let rc := downloadEntries (localPath ++ "/" ++ name) children
    match rc.2 with
    | some e => (rc.1, some e)
    | none =>
      let r := downloadEntries localPath ts
      (rc.1 ++ r.1, r.2)

/-- Modelled from the spec: `download_github_path(package, localpath)`.
`remote` is the tree at the remote package path, `none` when that path
does not exist (`NotFoundError`). -/
def download_github_path (remote : Option (List RTree)) (localpath : String) :
    List (String × String) × Option DownloadErr :=
  match remote with
  | none => ([], some DownloadErr.notFound)
  | some entries => downloadEntries localpath entries

/-- The `download` CLI command: run `download_github_path` and print
the success message only when it did not raise; a propagated failure
is surfaced and no success signal is produced, while files written
before the failure remain. -/
def downloadCmd (remote : Option (List RTree)) (package localpath : String) :
    List (String × String) × Except DownloadErr String :=
  let r := download_github_path remote localpath
  match r.2 with
  | some e => (r.1, Except.error e)
  | none => (r.1, Except.ok ("Successfully downloaded " ++ package ++ " to " ++ localpath))

/-! ## Dictionary lemmas -/

/-- Looking up a key just assigned returns the assigned value. -/
theorem dget_dset_self (d : Dict) (k : String) (v : Val) :
    dget (dset d k v) k = some v := by
  induction d with
  | nil => simp [dset, dget]
  | cons hd tl ih =>
    obtain ⟨k', v'⟩ := hd
    by_cases h : k' = k
    · simp [dset, dget, h]
    · simp [dset, dget, h, ih]

/-- Assignment to a key already present does not change the size. -/
theorem dset_length_of_mem (d : Dict) (k : String) (v : Val)
    (h : k ∈ d.map Prod.fst) : (dset d k v).length = d.length := by
  induction d with
  | nil => simp at h
  | cons hd tl ih =>
    obtain ⟨k', v'⟩ := hd
    by_cases hk : k' = k
    · simp [dset, hk]
    · have h2 : k ∈ tl.map Prod.fst := by
        simp only [List.map_cons, List.mem_cons] at h
        rcases h with h1 | h1
        · exact absurd h1.symm hk
        · exact h1
      simp [dset, hk, ih h2]

/-- `pop` of a key that lookup misses also misses (raises `KeyError`). -/
theorem dpop_eq_none (d : Dict) (k : String) (h : dget d k = none) :
    dpop d k = none := by
  induction d with
  | nil => simp [dpop]
  | cons hd tl ih =>
    obtain ⟨k', v'⟩ := hd
    by_cases hk : k' = k
    · simp [dget, hk] at h
    · simp [dget, hk] at h
      simp [dpop, hk, ih h]

/-- When the paths dict reads back successfully, writing any paths dict
succeeds and reads back exactly what was written. -/
theorem set_get_paths (p : PyProject) (pd0 : Dict)
    (h : p.get_langserve_path_dict = Except.ok pd0) (pd : Dict) :
    ∃ p', p.set_langserve_path_dict pd = Except.ok p'
      ∧ p'.get_langserve_path_dict = Except.ok pd := by
  unfold PyProject.get_langserve_path_dict PyProject.getLangserveDict at h
  unfold PyProject.set_langserve_path_dict
  cases htool : dget p.data "tool" with
  | none => rw [htool] at h; simp at h
  | some toolV =>
    rw [htool] at h
    cases toolV with
    | s x => simp [asTbl] at h
    | pair a b => simp [asTbl] at h
    | tbl tool =>
      simp only [asTbl] at h ⊢
      cases hls : dget tool "langserve" with
      | none =>
        refine ⟨_, rfl, ?_⟩
        simp [PyProject.get_langserve_path_dict, PyProject.getLangserveDict,
          dget_dset_self, asTbl]
      | some lv =>
        rw [hls] at h
        cases lv with
        | s x => simp [asTbl] at h
        | pair a b => simp [asTbl] at h
        | tbl ls =>
          refine ⟨_, rfl, ?_⟩
          simp [PyProject.get_langserve_path_dict, PyProject.getLangserveDict,
            dget_dset_self, asTbl]

/-! ## Claim theorems -/

/-- C4: `_package_to_pyproject` returns, for an identifier starting
with `.` or `/`, the identifier with `/pyproject.toml` appended;
otherwise the fixed-template raw-content URL ending in
`/<id>/pyproject.toml`, with `?token=<t>` appended when `GITHUB_TOKEN`
is available (set and nonempty) and omitted, without error, when it is
absent. -/
theorem package_to_pyproject_spec (package : String) (tok : Option String) :
    ((startswithChar package '.' = true ∨ startswithChar package '/' = true) →
      package_to_pyproject package tok = package ++ "/pyproject.toml")
    ∧ (startswithChar package '.' = false → startswithChar package '/' = false →
      ((tok = none ∨ tok = some "") →
        package_to_pyproject package tok
          = "https://raw.githubusercontent.com/langchain-ai/langserve-hub/main/"
            ++ package ++ "/pyproject.toml")
      ∧ (∀ t, tok = some t → t ≠ "" →
        package_to_pyproject package tok
          = "https://raw.githubusercontent.com/langchain-ai/langserve-hub/main/"
            ++ package ++ "/pyproject.toml" ++ ("?token=" ++ t))) := by
  refine ⟨fun h => ?_, fun h1 h2 => ⟨fun h3 => ?_, fun t ht hne => ?_⟩⟩
  · rcases h with h | h <;> simp [package_to_pyproject, h]
  · rcases h3 with rfl | rfl <;> simp [package_to_pyproject, h1, h2]
  · subst ht
    simp [package_to_pyproject, h1, h2, hne]

/-- C4 witness: concrete evaluations of `_package_to_pyproject` on a
local path and on a hub identifier with and without a token. -/
theorem package_to_pyproject_spec_witness :
    package_to_pyproject "./local/pkg" none = "./local/pkg" ++ "/pyproject.toml"
    ∧ package_to_pyproject "simple/pirate" none
      = "https://raw.githubusercontent.com/langchain-ai/langserve-hub/main/"
        ++ "simple/pirate" ++ "/pyproject.toml"
    ∧ package_to_pyproject "simple/pirate" (some "TOK")
      = "https://raw.githubusercontent.com/langchain-ai/langserve-hub/main/"
        ++ "simple/pirate" ++ "/pyproject.toml" ++ ("?token=" ++ "TOK") :=
  ⟨(package_to_pyproject_spec "./local/pkg" none).1 (Or.inl (by decide)),
   ((package_to_pyproject_spec "simple/pirate" none).2 (by decide) (by decide)).1
     (Or.inl rfl),
   ((package_to_pyproject_spec "simple/pirate" (some "TOK")).2 (by decide) (by decide)).2
     "TOK" rfl (by decide)⟩

/-- C5: `add_langserve_path` is an upsert with last-write-wins
semantics: on any document whose mount table reads back as `pd`,
`add_langserve_path p e` succeeds, the table then reads back as
`dset pd p e`, that table maps `p` to `e`, and when `p` was already
mapped the table size is unchanged (so a second add on the same path
overwrites the first). -/
theorem add_langserve_path_upsert (d : PyProject) (p : String) (e : Val) (pd : Dict)
    (h : d.get_langserve_paths = Except.ok pd) :
    ∃ d', d.add_langserve_path p e = Except.ok d'
      ∧ d'.get_langserve_paths = Except.ok (dset pd p e)
      ∧ dget (dset pd p e) p = some e
      ∧ (p ∈ pd.map Prod.fst → (dset pd p e).length = pd.length) := by
  have h' : d.get_langserve_path_dict = Except.ok pd := h
  obtain ⟨d', hset, hget⟩ := set_get_paths d pd h' (dset pd p e)
  refine ⟨d', ?_, hget, dget_dset_self _ _ _, fun hm => dset_length_of_mem _ _ _ hm⟩
  unfold PyProject.add_langserve_path
  rw [h']
  exact hset

/-- C5 witness: overwriting the existing mount at `/p`. -/
theorem add_langserve_path_upsert_witness :
    ∃ d', PyProject.add_langserve_path
        ⟨[("tool", Val.tbl [("langserve",
            Val.tbl [("paths", Val.tbl [("/p", Val.s "old")])])])],
          some "pyproject.toml"⟩ "/p" (Val.s "new") = Except.ok d'
      ∧ d'.get_langserve_paths
          = Except.ok (dset [("/p", Val.s "old")] "/p" (Val.s "new"))
      ∧ dget (dset [("/p", Val.s "old")] "/p" (Val.s "new")) "/p" = some (Val.s "new")
      ∧ ("/p" ∈ ([("/p", Val.s "old")] : Dict).map Prod.fst →
          (dset [("/p", Val.s "old")] "/p" (Val.s "new")).length
            = ([("/p", Val.s "old")] : Dict).length) :=
  add_langserve_path_upsert
    ⟨[("tool", Val.tbl [("langserve",
        Val.tbl [("paths", Val.tbl [("/p", Val.s "old")])])])],
      some "pyproject.toml"⟩ "/p" (Val.s "new") [("/p", Val.s "old")] rfl

/-- C6: on any document whose mount table reads back as `pd`,
`remove_langserve_path p` for a path `p` not in the table raises
`KeyError(p)`; the error is raised by `paths.pop(path)` before any
write-back, so the table is untouched (the returned outcome carries no
modified document). -/
theorem remove_langserve_path_absent (d : PyProject) (p : String) (pd : Dict)
    (h1 : d.get_langserve_paths = Except.ok pd) (h2 : dget pd p = none) :
    d.remove_langserve_path p = Except.error (Err.keyError p) := by
  have h1' : d.get_langserve_path_dict = Except.ok pd := h1
  simp [PyProject.remove_langserve_path, h1', dpop_eq_none pd p h2]

/-- C6 witness: removing `/q` from a document with an empty mount
table raises `KeyError("/q")`. -/
theorem remove_langserve_path_absent_witness :
    PyProject.remove_langserve_path
      ⟨[("tool", Val.tbl [])], some "pyproject.toml"⟩ "/q"
      = Except.error (Err.keyError "/q") :=
  remove_langserve_path_absent
    ⟨[("tool", Val.tbl [])], some "pyproject.toml"⟩ "/q" [] rfl rfl

/-- C7: on any document whose `tool.langserve` table reads back as
`ls`, `get_langserve_export` fails naming `export_module` when that
key is absent, fails naming `export_attr` when `export_module` is
present but `export_attr` is absent, and returns the pair when both
are present. -/
theorem get_langserve_export_spec (d : PyProject) (ls : Dict)
    (h : d.getLangserveDict = Except.ok ls) :
    (dget ls "export_module" = none →
      d.get_langserve_export = Except.error (Err.valueError
        "No module name was exported at `tool.langserve.export_module`"))
    ∧ (∀ m, dget ls "export_module" = some m → dget ls "export_attr" = none →
      d.get_langserve_export = Except.error (Err.valueError
        "No attr name was exported at `tool.langserve.export_attr`"))
    ∧ (∀ m a, dget ls "export_module" = some m → dget ls "export_attr" = some a →
      d.get_langserve_export = Except.ok (m, a)) := by
  refine ⟨fun hm => ?_, fun m hm ha => ?_, fun m a hm ha => ?_⟩
  all_goals simp [PyProject.get_langserve_export, h, hm]
  all_goals simp [ha]

/-- C7 witness: the three shapes of `tool.langserve` — missing module,
missing attr, both present. -/
theorem get_langserve_export_spec_witness :
    PyProject.get_langserve_export ⟨[("tool", Val.tbl [("langserve", Val.tbl [])])], none⟩
      = Except.error (Err.valueError
        "No module name was exported at `tool.langserve.export_module`")
    ∧ PyProject.get_langserve_export
        ⟨[("tool", Val.tbl [("langserve",
            Val.tbl [("export_module", Val.s "m")])])], none⟩
      = Except.error (Err.valueError
        "No attr name was exported at `tool.langserve.export_attr`")
    ∧ PyProject.get_langserve_export
        ⟨[("tool", Val.tbl [("langserve",
            Val.tbl [("export_module", Val.s "m"), ("export_attr", Val.s "a")])])], none⟩
      = Except.ok (Val.s "m", Val.s "a") :=
  ⟨(get_langserve_export_spec ⟨[("tool", Val.tbl [("langserve", Val.tbl [])])], none⟩
      [] rfl).1 rfl,
   (get_langserve_export_spec
      ⟨[("tool", Val.tbl [("langserve", Val.tbl [("export_module", Val.s "m")])])], none⟩
      [("export_module", Val.s "m")] rfl).2.1 (Val.s "m") rfl rfl,
   (get_langserve_export_spec
      ⟨[("tool", Val.tbl [("langserve",
          Val.tbl [("export_module", Val.s "m"), ("export_attr", Val.s "a")])])], none⟩
      [("export_module", Val.s "m"), ("export_attr", Val.s "a")] rfl).2.2
     (Val.s "m") (Val.s "a") rfl rfl⟩

/-- C8: a document created by `from_url` has no local path; `save` on
any document with no local path raises the invalid-state `ValueError`
and writes nothing (the outcome carries no write), while `save` on a
file-backed document writes its data back to the load path. -/
theorem save_spec (d : PyProject) :
    (∀ data d0, PyProject.from_url (some data) = Except.ok d0 → d0.path = none)
    ∧ (d.path = none →
      d.save = Except.error (Err.valueError
        "Cannot save a PyProject that was not loaded from a file"))
    ∧ (∀ pa, d.path = some pa → d.save = Except.ok (pa, d.data)) := by
  refine ⟨fun data d0 h0 => ?_, fun h => ?_, fun pa h => ?_⟩
  · simp [PyProject.from_url] at h0
    rw [← h0]
  · simp [PyProject.save, h]
  · simp [PyProject.save, h]

/-- C8 witness: saving a URL-backed document fails; saving a
file-backed one writes back to its load path. -/
theorem save_spec_witness :
    PyProject.save ⟨[("a", Val.s "b")], none⟩
      = Except.error (Err.valueError
        "Cannot save a PyProject that was not loaded from a file")
    ∧ PyProject.save ⟨[("a", Val.s "b")], some "pyproject.toml"⟩
      = Except.ok ("pyproject.toml", [("a", Val.s "b")]) :=
  ⟨(save_spec ⟨[("a", Val.s "b")], none⟩).2.1 rfl,
   (save_spec ⟨[("a", Val.s "b")], some "pyproject.toml"⟩).2.2 "pyproject.toml" rfl⟩

/-- C10: on any document whose data has no top-level `tool` key,
`is_langserve`, `add_langserve_path`, `remove_langserve_path` and
`get_langserve_paths` all raise `KeyError("tool")` (none treats the
document as incompatible or as having an empty table), and a remote
package manifest with no `tool` table makes the `add` workflow fail
with that lookup error instead of the incompatible-package
diagnostic. -/
theorem missing_tool_table_key_error (d : PyProject) (p : String) (e : Val)
    (h : dget d.data "tool" = none) :
    d.is_langserve = Except.error (Err.keyError "tool")
    ∧ d.add_langserve_path p e = Except.error (Err.keyError "tool")
    ∧ d.remove_langserve_path p = Except.error (Err.keyError "tool")
    ∧ d.get_langserve_paths = Except.error (Err.keyError "tool")
    ∧ (∀ package tok fetch installerExit localPath localData path,
        fetch (package_to_pyproject package tok) = some d.data →
        addCmd package tok fetch installerExit localPath localData path
          = ⟨false, Except.error (Err.keyError "tool")⟩) := by
  refine ⟨?_, ?_, ?_, ?_, ?_⟩
  · simp [PyProject.is_langserve, h]
  · simp [PyProject.add_langserve_path, PyProject.get_langserve_path_dict,
      PyProject.getLangserveDict, h]
  · simp [PyProject.remove_langserve_path, PyProject.get_langserve_path_dict,
      PyProject.getLangserveDict, h]
  · simp [PyProject.get_langserve_paths, PyProject.get_langserve_path_dict,
      PyProject.getLangserveDict, h]
  · intro package tok fetch installerExit localPath localData path hf
    simp [addCmd, hf, PyProject.from_url, PyProject.is_langserve, h]

/-- C10 witness: a document with empty data, and a registration run
fetching it as the remote manifest. -/
theorem missing_tool_table_key_error_witness :
    (PyProject.mk [] none).is_langserve = Except.error (Err.keyError "tool")
    ∧ addCmd "simple/pirate" none (fun _ => some []) 0 "pyproject.toml" [] none
      = ⟨false, Except.error (Err.keyError "tool")⟩ :=
  ⟨(missing_tool_table_key_error ⟨[], none⟩ "/x" (Val.s "m") rfl).1,
   (missing_tool_table_key_error ⟨[], none⟩ "/x" (Val.s "m") rfl).2.2.2.2
     "simple/pirate" none (fun _ => some []) 0 "pyproject.toml" [] none rfl⟩

/-- C1: in the `add` workflow, when the remote manifest fetch succeeds
but the manifest is not hub-compatible (`is_langserve` returns
`false`: it has a `tool` table with no `langserve` section), the
command fails with the incompatible-package `ValueError` with
`installerInvoked = false` — so the external installer was never
reached, and the error outcome carries no write, meaning the local
manifest was never loaded, mutated, or saved and its file is
byte-for-byte unchanged. -/
theorem add_incompatible_package (package : String) (tok : Option String)
    (fetch : String → Option Dict) (installerExit : Int)
    (localPath : String) (localData : Dict) (path : Option String) (remote : Dict)
    (hfetch : fetch (package_to_pyproject package tok) = some remote)
    (hnc : (PyProject.mk remote none).is_langserve = Except.ok false) :
    addCmd package tok fetch installerExit localPath localData path
      = ⟨false, Except.error (Err.valueError
          ("Package " ++ package
            ++ " does not have a `tool.langserve` section in its pyproject.toml"))⟩ := by
  simp [addCmd, hfetch, PyProject.from_url, hnc]

/-- C1 witness: adding a package whose remote manifest has a `tool`
table but no `langserve` section. -/
theorem add_incompatible_package_witness :
    addCmd "simple/pirate" none (fun _ => some [("tool", Val.tbl [])]) 0
        "pyproject.toml" [("x", Val.s "y")] none
      = ⟨false, Except.error (Err.valueError
          ("Package " ++ "simple/pirate"
            ++ " does not have a `tool.langserve` section in its pyproject.toml"))⟩ :=
  add_incompatible_package "simple/pirate" none (fun _ => some [("tool", Val.tbl [])])
    0 "pyproject.toml" [("x", Val.s "y")] none [("tool", Val.tbl [])] rfl rfl

/-- C2: the `list` command subscripts the `PyProject` wrapper object
itself instead of its `.data` dict, so it raises `TypeError` on every
project — here evaluated on a project whose manifest loads fine and
has one mount — instead of printing the mount table. -/
theorem list_raises_type_error :
    listCmd [("tool", Val.tbl [("langserve", Val.tbl [("paths",
        Val.tbl [("/pirate", Val.pair (Val.s "m") (Val.s "a"))])])])]
      = Except.error Err.typeError := rfl

/-- C3 counterexample: a run of `add` on a hub-compatible package in
which the external installer exits with status `1`, yet the command's
outcome is a successful save of the new mount — the non-zero exit is
not surfaced as a failure. -/
theorem add_installer_exit_counterexample :
    addCmd "simple/pirate" none
      (fun _ => some [("tool", Val.tbl [("langserve", Val.tbl
        [("export_module", Val.s "pirate_mod"), ("export_attr", Val.s "chain")])])])
      1 "pyproject.toml" [("tool", Val.tbl [])] none
      = ⟨true, Except.ok ("pyproject.toml",
          [("tool", Val.tbl [("langserve", Val.tbl [("paths",
            Val.tbl [("/simple/pirate",
              Val.pair (Val.s "pirate_mod") (Val.s "chain"))])])])])⟩ := rfl

/-- C3 amended: `add` invokes the external installer but discards its
exit status (`subprocess.run` without `check=True`, return value
unread): the outcome of the command is identical for every exit
status, so a non-zero exit is not surfaced and the workflow continues
to mount and save as if the install had succeeded. -/
theorem add_ignores_installer_exit (package : String) (tok : Option String)
    (fetch : String → Option Dict) (exit1 exit2 : Int)
    (localPath : String) (localData : Dict) (path : Option String) :
    addCmd package tok fetch exit1 localPath localData path
      = addCmd package tok fetch exit2 localPath localData path := rfl

/-- C9 (downloader modelled from the spec, `github.py` not among the
sources): downloading the remote tree `{a.txt, sub/{b.txt}}` into
destination `D` writes `D/a.txt` and `D/sub/b.txt` with the fetched
contents and reports success; when the fetch of `sub/b.txt` fails,
the whole operation fails with that first failure, no success signal
is produced, and the already-written `D/a.txt` remains. -/
theorem download_tree_spec (D package ca cb : String) :
    downloadCmd (some [RTree.file "a.txt" (some ca),
        RTree.dir "sub" [RTree.file "b.txt" (some cb)]]) package D
      = ([(D ++ "/" ++ "a.txt", ca), (D ++ "/" ++ "sub" ++ "/" ++ "b.txt", cb)],
          Except.ok ("Successfully downloaded " ++ package ++ " to " ++ D))
    ∧ downloadCmd (some [RTree.file "a.txt" (some ca),
        RTree.dir "sub" [RTree.file "b.txt" none]]) package D
      = ([(D ++ "/" ++ "a.txt", ca)],
          Except.error (DownloadErr.fetchFailed (D ++ "/" ++ "sub" ++ "/" ++ "b.txt"))) := by
  constructor <;>
    simp [downloadCmd, download_github_path, downloadEntries]

end LangserveHub
